import Mathlib

/-!
Shallow embedding of `network3.py` (a PyTensor/JAX port of Nielsen's
`network3.py`) and proofs about it.  Machine floats are modelled over `ℚ`
(exactly representable arithmetic) except for the softmax/log-likelihood
cost, which is modelled over `ℝ` with `Real.exp`/`Real.log`.  Random draws
(dropout masks) are modelled by explicit uniform samples `u ∈ [0,1)`
threaded as arguments.
-/

namespace Network3

/-! ### Module-level initialization (lines 54-70)

The module body is a straight-line sequence of top-level statements.  With
the shipped constant `GPU = True` the `if GPU:` branch prints, configures
the device, prints again and calls `exit()`; the class and function
definitions further down the file are themselves top-level statements that
only execute if control reaches them. -/

/-- A top-level statement of the module body, at the granularity the claims
need: prints and configuration, the `exit()` call, and each `class`/`def`
statement (in Python a `class` statement executes to create the class). -/
inductive Stmt
  | prints
  | tryCudaConfig
  | setFloatX
  | exitCall
  | defLoadDataShared
  | classConvPoolLayer
  | classFullyConnectedLayer
  | classSoftmaxLayer
  | classNetwork
  | defSize
  | defDropoutLayer
  deriving DecidableEq, Repr

/-- The module-level constant `GPU` (line 55 of the source). -/
def GPU : Bool := true

/-- Lines 56-70: the two arms of the `if GPU:` statement. -/
def gpuBranch (gpu : Bool) : List Stmt :=
  if gpu then
    [.prints, .tryCudaConfig, .setFloatX, .prints, .exitCall]
  else
    [.prints]

/-- The full module body: the `if GPU:` statement followed by the
`load_data_shared` definition, the four class definitions, `size` and
`dropout_layer` (lines 72-399). -/
def moduleStmts (gpu : Bool) : List Stmt :=
  gpuBranch gpu ++
    [.defLoadDataShared, .classConvPoolLayer, .classFullyConnectedLayer,
     .classSoftmaxLayer, .classNetwork, .defSize, .defDropoutLayer]

/-- Executing the module body: statements run in order; `exit()` stops
execution (nothing after it runs).  Returns the list of statements that
actually executed. -/
def runModule : List Stmt → List Stmt
  | [] => []
  | .exitCall :: _ => [.exitCall]
  | s :: rest => s :: runModule rest

/-- The class statement for `c` executed, i.e. the class exists and could be
instantiated in this run. -/
def classDefined (gpu : Bool) (c : Stmt) : Prop :=
  c ∈ runModule (moduleStmts gpu)

instance (gpu : Bool) (c : Stmt) : Decidable (classDefined gpu c) := by
  unfold classDefined; infer_instance

/-! ### List/matrix helpers

Matrices are `List (List ℚ)`, row-major, as the numpy arrays in the source.
`pt.reshape(v, (r, c))` on a flat vector is row-major chunking; `pt.dot` is
ordinary matrix multiplication; adding a length-`c` bias vector to an
`r × c` matrix broadcasts the bias across rows. -/

section MatrixHelpers

variable {α : Type} [Field α]

/-- Row-major reshape of a flat vector into `r` rows of `c` entries
(`pt.reshape(inpt, (r, c))`). -/
def reshapeRows : ℕ → ℕ → List α → List (List α)
  | 0, _, _ => []
  | r + 1, c, xs => xs.take c :: reshapeRows r c (xs.drop c)

/-- Dot product of two vectors. -/
def dotVec (u v : List α) : α := (List.zipWith (· * ·) u v).sum

/-- Column `j` of a matrix. -/
def column (B : List (List α)) (j : ℕ) : List α := B.map (fun row => row.getD j 0)

/-- Matrix product (`pt.dot`): entry `(i, j)` is the dot product of row `i`
of `A` with column `j` of `B`. -/
def matMul (A B : List (List α)) : List (List α) :=
  A.map fun row => (List.range (B.headD []).length).map fun j => dotVec row (column B j)

/-- Add a bias vector to every row (broadcasting `+ self.b`). -/
def addBias (A : List (List α)) (b : List α) : List (List α) :=
  A.map fun row => List.zipWith (· + ·) row b

/-- Multiply every entry by a scalar (`(1 - self.p_dropout) * ...`). -/
def scaleMatrix (c : α) (A : List (List α)) : List (List α) :=
  A.map (List.map (fun x => c * x))

/-- Apply a scalar function to every entry (elementwise activation). -/
def mapMatrix (f : α → α) (A : List (List α)) : List (List α) :=
  A.map (List.map f)

/-- Elementwise (Hadamard) product of two matrices. -/
def hadamard (A B : List (List α)) : List (List α) :=
  List.zipWith (List.zipWith (· * ·)) A B

end MatrixHelpers

/-- `pt.argmax(..., axis=1)` on one row: index of the first maximal entry. -/
def argmax (xs : List ℚ) : ℕ :=
  (xs.enum.foldl (fun best p => if best.2 < p.2 then p else best) (0, xs.headD 0)).1

/-! ### `dropout_layer` (lines 393-399)

`pt.random.binomial(n=1, p=1-p_dropout)` draws one Bernoulli trial per
element with success probability `1 - p_dropout`.  A draw is modelled by a
uniform sample `u ∈ [0,1)`: the trial succeeds exactly when `u < 1 - p`,
which happens with probability `1 - p` for uniform `u`.  The function then
multiplies the input elementwise by the resulting 0/1 mask — no rescaling. -/

/-- One `binomial(n=1, p=q)` draw from a uniform sample `u ∈ [0,1)`:
`1` iff `u < q` (an event of probability `q`). -/
def binomialDraw (q u : ℚ) : ℚ := if u < q then 1 else 0

/-- `dropout_layer(layer, p_dropout)` on a flat vector, with the uniform
samples `us` behind the mask made explicit:
`layer * cast(binomial(n=1, p=1-p_dropout, size=layer.shape))`. -/
def dropout_layer (layer : List ℚ) (p_dropout : ℚ) (us : List ℚ) : List ℚ :=
  List.zipWith (fun x u => x * binomialDraw (1 - p_dropout) u) layer us

/-- `dropout_layer` applied to a matrix (one uniform sample per entry). -/
def dropoutMatrix (A : List (List ℚ)) (p_dropout : ℚ) (us : List (List ℚ)) :
    List (List ℚ) :=
  List.zipWith (fun row urow => dropout_layer row p_dropout urow) A us

/-! ### `FullyConnectedLayer` (lines 174-221) -/

structure FullyConnectedLayer where
  n_in : ℕ
  n_out : ℕ
  activation_fn : ℚ → ℚ
  p_dropout : ℚ
  w : List (List ℚ)          -- shape (n_in, n_out)
  b : List ℚ                 -- shape (n_out,)

/-- The tensors `set_inpt` stores on the layer. -/
structure FCOutputs where
  inpt : List (List ℚ)
  output : List (List ℚ)
  y_out : List ℕ
  inpt_dropout : List (List ℚ)
  output_dropout : List (List ℚ)

/-- `FullyConnectedLayer.set_inpt(inpt, inpt_dropout, mini_batch_size)`
(lines 200-216), with the dropout mask's uniform samples `us` explicit:
reshape `inpt` to `(mini_batch_size, n_in)`;
`output = activation_fn((1-p_dropout) * dot(inpt, w) + b)`;
`y_out = argmax(output, axis=1)`;
reshape `inpt_dropout` likewise;
`inpt_dropout := dropout_layer(inpt_dropout, p_dropout)`;
`output_dropout = activation_fn(dot(inpt_dropout, w) + b)`. -/
def FullyConnectedLayer.set_inpt (l : FullyConnectedLayer)
    (inpt inpt_dropout : List ℚ) (mini_batch_size : ℕ) (us : List (List ℚ)) :
    FCOutputs :=
  let inptM := reshapeRows mini_batch_size l.n_in inpt
  let output := mapMatrix l.activation_fn
    (addBias (scaleMatrix (1 - l.p_dropout) (matMul inptM l.w)) l.b)
  let y_out := output.map argmax
  let inptD := reshapeRows mini_batch_size l.n_in inpt_dropout
  let inptDrop := dropoutMatrix inptD l.p_dropout us
  let output_dropout := mapMatrix l.activation_fn (addBias (matMul inptDrop l.w) l.b)
  ⟨inptM, output, y_out, inptDrop, output_dropout⟩

/-! ### `ConvPoolLayer` (lines 93-172)

4D tensors (batch, channel, height, width) are nested lists.  The source's
`set_inpt` body reads `self.inpt` and runs the convolution (lines 142-157)
BEFORE the line `self.inpt = pt.reshape(inpt, self.image_shape)` (line 160);
on a freshly constructed layer the attribute `self.inpt` does not exist
(`__init__` never sets it), which in Python raises `AttributeError`.  The
embedding keeps the attribute as an `Option` field and reproduces this
statement order exactly.  The pooling call (lines 162-168) uses the literal
constants `window_shape = (2, 2)` and `strides = (2, 2)` with `VALID`
padding; `self.poolsize` is not consulted. -/

abbrev Tensor4 : Type := List (List (List (List ℚ)))

/-- Entry of a matrix at possibly-out-of-range integer coordinates, `0`
outside (zero padding for `SAME` convolution). -/
def paddedEntry (A : List (List ℚ)) (i j : ℤ) : ℚ :=
  if 0 ≤ i ∧ 0 ≤ j then (A.getD i.toNat []).getD j.toNat 0 else 0

/-- 2D correlation of one plane with one filter plane, stride 1, `SAME`
zero padding (JAX: total padding `f - 1`, low side `(f - 1) / 2`); the
output has the spatial size of the input. -/
def convPlaneSAME (plane filt : List (List ℚ)) : List (List ℚ) :=
  let fH := filt.length
  let fW := (filt.headD []).length
  let loH : ℤ := ((fH - 1) / 2 : ℕ)
  let loW : ℤ := ((fW - 1) / 2 : ℕ)
  (List.range plane.length).map fun y =>
    (List.range (plane.headD []).length).map fun x =>
      ((List.range fH).map fun (i : ℕ) =>
        ((List.range fW).map fun (j : ℕ) =>
          paddedEntry plane ((y : ℤ) + (i : ℤ) - loH) ((x : ℤ) + (j : ℤ) - loW) *
            (filt.getD i []).getD j 0).sum).sum

/-- Elementwise sum of two equally-shaped planes. -/
def matAdd (A B : List (List ℚ)) : List (List ℚ) :=
  List.zipWith (List.zipWith (· + ·)) A B

/-- Sum a list of equally-shaped planes. -/
def sumPlanes : List (List (List ℚ)) → List (List ℚ)
  | [] => []
  | p :: ps => ps.foldl matAdd p

/-- `conv_general_dilated(lhs, rhs, window_strides=(1,1), padding="SAME")`:
for each batch element and each output channel, sum over input channels of
the `SAME`-padded stride-1 2D correlation. -/
def conv_general_dilated (lhs rhs : Tensor4) : Tensor4 :=
  lhs.map fun channels =>
    rhs.map fun filts =>
      sumPlanes (List.zipWith convPlaneSAME channels filts)

/-- `VALID` output size: number of full windows of size `w` at stride `s`
over an axis of size `n`. -/
def validOutDim (n w s : ℕ) : ℕ := if n < w then 0 else (n - w) / s + 1

/-- Entries of the pooling window with top-left corner `(r, c)`. -/
def poolWindow (A : List (List ℚ)) (r c wh ww : ℕ) : List ℚ :=
  (List.range wh).flatMap fun i =>
    (List.range ww).map fun j => (A.getD (r + i) []).getD (c + j) 0

/-- `reduce_window(·, -inf, max, (wh, ww), (sh, sw), "VALID")` on one
plane: max over each full window. -/
def maxPoolPlane (wh ww sh sw : ℕ) (A : List (List ℚ)) : List (List ℚ) :=
  (List.range (validOutDim A.length wh sh)).map fun r =>
    (List.range (validOutDim (A.headD []).length ww sw)).map fun c =>
      (poolWindow A (r * sh) (c * sw) wh ww).max?.getD 0

/-- Add the scalar `c` to every entry of a plane (per-channel bias
broadcast `self.b.dimshuffle('x', 0, 'x', 'x')`). -/
def addScalarPlane (A : List (List ℚ)) (c : ℚ) : List (List ℚ) :=
  A.map (List.map (fun x => x + c))

/-- Row-major reshape of a flat vector into a 4D tensor of shape
`(b, c, h, w)` (`pt.reshape(inpt, self.image_shape)`). -/
def reshape4 (shape : ℕ × ℕ × ℕ × ℕ) (xs : List ℚ) : Tensor4 :=
  (List.range shape.1).map fun bi =>
    (List.range shape.2.1).map fun ci =>
      reshapeRows shape.2.2.1 shape.2.2.2
        (xs.drop ((bi * shape.2.1 + ci) * (shape.2.2.1 * shape.2.2.2)))

structure ConvPoolLayer where
  filter_shape : ℕ × ℕ × ℕ × ℕ       -- (filters, input maps, height, width)
  image_shape : ℕ × ℕ × ℕ × ℕ        -- (batch, input maps, height, width)
  poolsize : ℕ × ℕ
  activation_fn : ℚ → ℚ
  w : Tensor4
  b : List ℚ
  inpt : Option Tensor4               -- not set by __init__; assigned by set_inpt

/-- `ConvPoolLayer.set_inpt(inpt, inpt_dropout, mini_batch_size)` (lines
137-172), in the source's statement order:
1. `input_tensor = self.inpt` — reads the attribute; `AttributeError` on a
   fresh layer (modelled as `Except.error`);
2. `conv_out = conv_general_dilated(input_tensor, self.w, (1,1), "SAME")`;
3. `self.inpt = pt.reshape(inpt, self.image_shape)` — only now is the
   `inpt` argument stored;
4. `pooled_out = reduce_window(conv_out, -inf, max, (2,2), (2,2), "VALID")`
   — window and stride are the hardcoded constants of lines 163-164
   (`self.poolsize` is never read here), pooling each (batch, channel)
   plane of `conv_out`;
5. `output = activation_fn(pooled_out + b broadcast)`; `output_dropout =
   output` (no dropout in convolutional layers).
Returns the updated layer and the pair `(output, output_dropout)`.
The `inpt_dropout` and `mini_batch_size` arguments are not used by the
source body, exactly as here. -/
def ConvPoolLayer.set_inpt (l : ConvPoolLayer)
    (inpt inpt_dropout : List ℚ) (mini_batch_size : ℕ) :
    Except String (ConvPoolLayer × Tensor4 × Tensor4) :=
  match l.inpt with
  | none => .error "AttributeError: ConvPoolLayer object has no attribute inpt"
  | some input_tensor =>
    let conv_out := conv_general_dilated input_tensor l.w
    let l' := { l with inpt := some (reshape4 l.image_shape inpt) }
    let pooled_out := conv_out.map fun chans => chans.map (maxPoolPlane 2 2 2 2)
    let output := pooled_out.map fun chans =>
      (List.zipWith addScalarPlane chans l.b).map fun plane =>
        plane.map (List.map l.activation_fn)
    .ok (l', output, output)

/-! ### `Network.__init__` (lines 270-294), symbolically

`Network.__init__` only builds a symbolic graph: it calls each layer's
`set_inpt` with placeholder-derived expressions, and contains no check of
any layer's declared sizes (it reads `layer.params`, `self.x`, `self.y`
and the layers' `output`/`output_dropout` — never `n_in`/`n_out`).  The
wiring is embedded over a small expression AST; each dense-style layer (a
`FullyConnectedLayer` or `SoftmaxLayer`, the kinds a declared `n_in`/`n_out`
mismatch concerns) contributes the graph of its `set_inpt`.  The only
Python error reachable in the `__init__` body for such layers is the
`layers[0]` index on an empty list. -/

inductive SymExpr
  | x                                      -- the input placeholder self.x
  | reshape (rows cols : ℕ) (e : SymExpr)
  | scale (c : ℚ) (e : SymExpr)
  | dot (e : SymExpr) (layerIdx : ℕ)       -- · w of layer layerIdx
  | addB (e : SymExpr) (layerIdx : ℕ)      -- + b of layer layerIdx
  | act (layerIdx : ℕ) (e : SymExpr)       -- activation / softmax of the layer
  | dropoutE (p : ℚ) (e : SymExpr)         -- dropout_layer(e, p)
  deriving DecidableEq

/-- Declared sizes and dropout probability of a dense-style layer. -/
structure LayerDecl where
  n_in : ℕ
  n_out : ℕ
  p_dropout : ℚ
  deriving DecidableEq

/-- The symbolic graph built by `set_inpt` of a dense-style layer (lines
200-216 and 242-255): reshape, scaled dot plus bias under the activation on
the primary path; dropout then unscaled dot plus bias on the dropout path.
Total — graph building never raises. -/
def symSetInpt (idx : ℕ) (d : LayerDecl) (mbs : ℕ) (inpt inptDrop : SymExpr) :
    SymExpr × SymExpr :=
  (.act idx (.addB (.scale (1 - d.p_dropout) (.dot (.reshape mbs d.n_in inpt) idx)) idx),
   .act idx (.addB (.dot (.dropoutE d.p_dropout (.reshape mbs d.n_in inptDrop)) idx) idx))

/-- `Network.__init__(layers, mini_batch_size)` (lines 270-294): `layers[0]`
raises `IndexError` on an empty list; otherwise the first layer gets
`(self.x, self.x)` and each subsequent layer gets the previous layer's
`(output, output_dropout)`.  No size validation of any kind is performed. -/
def Network.init (layers : List LayerDecl) (mini_batch_size : ℕ) :
    Except String (SymExpr × SymExpr) :=
  match layers with
  | [] => .error "IndexError: list index out of range"
  | l0 :: rest =>
    let first := symSetInpt 0 l0 mini_batch_size .x .x
    .ok (rest.enum.foldl
      (fun acc p => symSetInpt (p.1 + 1) p.2 mini_batch_size acc.1 acc.2) first)

/-! ### `Network.SGD`: cost, gradients, updates (lines 296-316) -/

/-- The trainable tensors of one layer (`layer.w`, `layer.b`). -/
structure LayerWB where
  w : List (List ℚ)
  b : List ℚ

/-- Sum of squares of all entries of a matrix (`(layer.w**2).sum()`). -/
def sumSquares (A : List (List ℚ)) : ℚ :=
  (A.map (fun row => (row.map (fun x => x ^ 2)).sum)).sum

/-- Line 309: `l2_norm_squared = sum([(layer.w**2).sum() for layer in
self.layers])` — only the `w` tensors are read. -/
def l2_norm_squared (layers : List LayerWB) : ℚ :=
  (layers.map (fun l => sumSquares l.w)).sum

/-- What lines 308-316 build: the total cost, the gradient list and the
update pairs `(param, param - eta*grad)`. -/
structure SGDGraph where
  cost : ℚ
  grads : List ℚ
  updates : List (ℚ × ℚ)

/-- Lines 308-316 of `Network.SGD`, with `pt.grad` (the engine's automatic
differentiation, an external capability) abstracted as `gradOf cost params`:
`cost = self.layers[-1].cost(self) + 0.5*lmbda*l2_norm_squared/num_training_batches`;
`grads = pt.grad(cost, self.params)`;
`updates = [(param, param - eta*grad) for param, grad in zip(params, grads)]`. -/
def buildSGDGraph (gradOf : ℚ → List ℚ → List ℚ) (layers : List LayerWB)
    (lastLayerCost : ℚ) (params : List ℚ) (eta lmbda : ℚ)
    (num_training_batches : ℕ) : SGDGraph :=
  let cost := lastLayerCost +
    (1 / 2 : ℚ) * lmbda * l2_norm_squared layers / num_training_batches
  let grads := gradOf cost params
  { cost := cost
    grads := grads
    updates := List.zipWith (fun param grad => (param, param - eta * grad)) params grads }

/-! ### `Network.SGD`: the training loop (lines 361-386)

The per-mini-batch accuracy evaluators depend on the current parameter
values, which change with every training step; they are abstracted as
functions of the number of training steps executed so far and the
mini-batch index (`vmb steps j` = `validate_mb_accuracy(j)` after `steps`
training steps, likewise `tmb` for `test_mb_accuracy`). -/

/-- Mean of a list (`np.mean`); `0` for the empty list. -/
def meanQ (xs : List ℚ) : ℚ := xs.sum / xs.length

/-- The loop state of lines 361-386. -/
structure TrainState where
  best_validation_accuracy : ℚ
  best_iteration : Option ℕ
  test_accuracy : Option ℚ
  train_calls : ℕ                   -- number of train_mb invocations so far
  deriving DecidableEq

/-- One iteration of the inner loop (lines 364-382): run `train_mb`, then —
only when `(iteration + 1) % num_training_batches == 0` — compute the mean
validation accuracy over all validation mini-batches; if it is `>=` the
best so far, record it, the current `iteration`, and (when `test_data` is
supplied) the mean test accuracy. -/
def sgdInner (vmb tmb : ℕ → ℕ → ℚ) (hasTest : Bool)
    (num_training_batches num_validation_batches num_test_batches : ℕ)
    (epoch : ℕ) (st : TrainState) (minibatch_index : ℕ) : TrainState :=
  let iteration := num_training_batches * epoch + minibatch_index
  let st := { st with train_calls := st.train_calls + 1 }
  if (iteration + 1) % num_training_batches == 0 then
    let validation_accuracy :=
      meanQ ((List.range num_validation_batches).map (vmb st.train_calls))
    if st.best_validation_accuracy ≤ validation_accuracy then
      let st' := { st with
        best_validation_accuracy := validation_accuracy
        best_iteration := some iteration }
      if hasTest then
        { st' with
          test_accuracy := some (meanQ ((List.range num_test_batches).map (tmb st.train_calls))) }
      else st'
    else st
  else st

/-- One epoch: the inner loop over `minibatch_index in range(num_training_batches)`. -/
def sgdEpoch (vmb tmb : ℕ → ℕ → ℚ) (hasTest : Bool)
    (num_training_batches num_validation_batches num_test_batches : ℕ)
    (st : TrainState) (epoch : ℕ) : TrainState :=
  (List.range num_training_batches).foldl
    (sgdInner vmb tmb hasTest num_training_batches num_validation_batches
      num_test_batches epoch) st

/-- The initial loop state: `best_validation_accuracy = 0.0` (line 362);
`best_iteration` and `test_accuracy` unassigned. -/
def initTrainState : TrainState :=
  { best_validation_accuracy := 0
    best_iteration := none
    test_accuracy := none
    train_calls := 0 }

/-- The outer loop over `epoch in range(epochs)`. -/
def runSGD (vmb tmb : ℕ → ℕ → ℚ) (hasTest : Bool)
    (num_training_batches num_validation_batches num_test_batches : ℕ)
    (epochs : ℕ) : TrainState :=
  (List.range epochs).foldl
    (sgdEpoch vmb tmb hasTest num_training_batches num_validation_batches
      num_test_batches) initTrainState

/-! ### `size` and the mini-batch counts (lines 303-306, 389-391) -/

/-- `size(data) = data[0].get_value(borrow=True).shape[0]`: the row count
of the inputs array of a `(inputs, labels)` split. -/
def size (data : List (List ℚ) × List ℕ) : ℕ := data.1.length

/-- `int(size(data)/mini_batch_size)` (lines 304-306): Python 3 true
division truncated by `int`, i.e. the floor for non-negative operands —
`Nat` division. -/
def num_batches (data : List (List ℚ) × List ℕ) (mini_batch_size : ℕ) : ℕ :=
  size data / mini_batch_size

/-- The row indices read by mini-batch `i`:
`data[i*mini_batch_size : (i+1)*mini_batch_size]` (lines 328-330). -/
def batchRows (i mini_batch_size : ℕ) : List ℕ :=
  List.range' (i * mini_batch_size) mini_batch_size

/-- All row indices read over one epoch: batches `0, ..., nb - 1` in order. -/
def usedRows (nb mini_batch_size : ℕ) : List ℕ :=
  (List.range nb).flatMap (fun i => batchRows i mini_batch_size)

/-! ### `SoftmaxLayer` output and cost (lines 223-260), over `ℝ`

The softmax and the log-likelihood cost involve `exp`/`log`, so this part
of the embedding lives in `ℝ`.  The realized dropout mask (the 0/1 draws of
`dropout_layer`) is passed as an explicit matrix. -/

/-- One row of `softmax(z)`: entry `j` is `exp z_j / Σ_k exp z_k`. -/
noncomputable def softmaxRow (z : List ℝ) : List ℝ :=
  z.map (fun zi => Real.exp zi / (z.map Real.exp).sum)

/-- Row-wise softmax of a matrix (`pytensor.tensor.special.softmax`). -/
noncomputable def softmaxMatrix (Z : List (List ℝ)) : List (List ℝ) :=
  Z.map softmaxRow

/-- The dropout-path output built by `SoftmaxLayer.set_inpt` (lines
250-255): reshape `inpt_dropout` to `(mini_batch_size, n_in)`, apply the
realized dropout mask, then `softmax(dot(inpt_dropout, w) + b)`. -/
noncomputable def SoftmaxLayer.set_inpt_output_dropout
    (w : List (List ℝ)) (b : List ℝ) (n_in : ℕ)
    (inpt_dropout : List ℝ) (mini_batch_size : ℕ) (mask : List (List ℝ)) :
    List (List ℝ) :=
  softmaxMatrix (addBias (matMul (hadamard (reshapeRows mini_batch_size n_in inpt_dropout) mask) w) b)

/-- `SoftmaxLayer.cost(net)` (lines 257-260):
`-pt.mean(pt.log(self.output_dropout)[pt.arange(net.y.shape[0]), net.y])` —
the negative mean over rows `i < len(y)` of `log(output_dropout[i][y[i]])`. -/
noncomputable def SoftmaxLayer.cost (output_dropout : List (List ℝ)) (y : List ℕ) : ℝ :=
  -(((List.range y.length).map (fun i =>
      Real.log ((output_dropout.getD i []).getD (y.getD i 0) 0))).sum / (y.length : ℝ))

/-- The probability the row-`i` predicted distribution (softmax of logits
`Z`) assigns to label `yi`, written directly from the softmax formula. -/
noncomputable def trueLabelProb (Z : List (List ℝ)) (i yi : ℕ) : ℝ :=
  Real.exp ((Z.getD i []).getD yi 0) / ((Z.getD i []).map Real.exp).sum

/-! ### Concrete instances used by the counterexample/failing-input theorems -/

/-- The `linear` activation of line 45: `def linear(z): return z`. -/
def linear (z : ℚ) : ℚ := z

/-- A 6×6 feature map with entry `(i, j) = 6*i + j` (all entries distinct). -/
def demoPlane6 : List (List ℚ) :=
  [[0, 1, 2, 3, 4, 5],
   [6, 7, 8, 9, 10, 11],
   [12, 13, 14, 15, 16, 17],
   [18, 19, 20, 21, 22, 23],
   [24, 25, 26, 27, 28, 29],
   [30, 31, 32, 33, 34, 35]]

/-- A 4×4 feature map (the spec's pooling example). -/
def demoPlane4 : List (List ℚ) :=
  [[1, 2, 3, 4],
   [5, 6, 7, 8],
   [9, 10, 11, 12],
   [13, 14, 15, 16]]

/-- A `ConvPoolLayer` constructed with `poolsize=(3, 3)`, a 1×1 identity
filter (so the `SAME` convolution maps each plane to itself), zero bias,
`linear` activation, and `demoPlane6` as the stored input tensor from a
previous `set_inpt` call. -/
def demoConvPoolLayer : ConvPoolLayer :=
  { filter_shape := (1, 1, 1, 1)
    image_shape := (1, 1, 6, 6)
    poolsize := (3, 3)
    activation_fn := linear
    w := [[[[1]]]]
    b := [0]
    inpt := some [[demoPlane6]] }

/-- A `ConvPoolLayer` exactly as `__init__` leaves it: `self.inpt` has
never been assigned. -/
def freshConvPoolLayer : ConvPoolLayer :=
  { filter_shape := (1, 1, 1, 1)
    image_shape := (1, 1, 6, 6)
    poolsize := (2, 2)
    activation_fn := linear
    w := [[[[1]]]]
    b := [0]
    inpt := none }

/-- A flat length-36 input vector (one 6×6 image). -/
def demoFlat36 : List ℚ := List.replicate 36 0

/-- A tiny `FullyConnectedLayer` (1 input, 2 outputs, `p_dropout = 1/2`)
for concrete witnesses. -/
def demoFCLayer : FullyConnectedLayer :=
  { n_in := 1
    n_out := 2
    activation_fn := linear
    p_dropout := 1/2
    w := [[3, 5]]
    b := [7, 11] }

/-- A 105-row data split (the spec's batch-count example). -/
def demoSplit : List (List ℚ) × List ℕ := (List.replicate 105 [], List.replicate 105 0)

/-- A stand-in for the engine's `pt.grad` in concrete witnesses. -/
def demoGradOf : ℚ → List ℚ → List ℚ := fun _ _ => [1]

/-- One layer's parameters for concrete witnesses. -/
def demoLayersWB : List LayerWB := [⟨[[2]], [3]⟩]

/-! ## Theorems -/

/-- **C1.** Under the shipped configuration `GPU = True`, module
initialization executes the GPU branch (device message, config, `exit()`)
and stops at `exit()`: none of the class statements (`ConvPoolLayer`,
`FullyConnectedLayer`, `SoftmaxLayer`, `Network`) ever executes, so in
every program run none of those classes exists to be constructed and no
`SGD` training step can run. -/
theorem gpu_true_module_exits_before_class_definitions :
    GPU = true ∧
    runModule (moduleStmts GPU) =
      [Stmt.prints, Stmt.tryCudaConfig, Stmt.setFloatX, Stmt.prints, Stmt.exitCall] ∧
    ¬ classDefined GPU Stmt.classConvPoolLayer ∧
    ¬ classDefined GPU Stmt.classFullyConnectedLayer ∧
    ¬ classDefined GPU Stmt.classSoftmaxLayer ∧
    ¬ classDefined GPU Stmt.classNetwork := by
  decide

/-- **C2.** Contrary to the claim, the convolution inside
`ConvPoolLayer.set_inpt` does not operate on (a reshape of) the `inpt`
argument of the current call: the source reads `self.inpt` (line 142) and
convolves it (line 152) before `self.inpt = pt.reshape(inpt, ...)` runs
(line 160).  Hence (i) the returned `output`/`output_dropout` (and the
error behaviour) are identical for any two choices of the `inpt`,
`inpt_dropout` and `mini_batch_size` arguments, and (ii) on a freshly
constructed layer — which is exactly how `Network.__init__` calls it — the
call fails (`AttributeError`), computing no output at all. -/
theorem convpool_conv_ignores_current_inpt_argument :
    (∀ (l : ConvPoolLayer) (i₁ d₁ i₂ d₂ : List ℚ) (m₁ m₂ : ℕ),
      (l.set_inpt i₁ d₁ m₁).map (fun r => r.2) =
        (l.set_inpt i₂ d₂ m₂).map (fun r => r.2)) ∧
    (freshConvPoolLayer.set_inpt demoFlat36 demoFlat36 1).isOk = false := by
  constructor
  · intro l i₁ d₁ i₂ d₂ m₁ m₂
    cases h : l.inpt <;> simp [ConvPoolLayer.set_inpt, h, Except.map]
  · rfl

/-- **C3 (counterexample).** Constructing a `Network` whose adjacent layers
have mismatched declared sizes (first layer `n_out = 30`, second layer
`n_in = 20`, the spec's own example) does **not** raise a configuration
error: `Network.__init__` completes successfully. -/
theorem network_init_mismatched_sizes_succeeds :
    (Network.init [⟨784, 30, 0⟩, ⟨20, 10, 0⟩] 10).isOk = true := by
  rfl

/-- **C3 (amended).** `Network.__init__` performs no validation of adjacent
layers' declared sizes: for every non-empty layer list — matched or
mismatched — construction succeeds and builds the wired graph; only the
empty list fails (the `layers[0]` access).  A size mismatch can surface
only later, inside the compiled computation graph. -/
theorem network_init_never_validates_sizes
    (layers : List LayerDecl) (mini_batch_size : ℕ) (h : layers ≠ []) :
    (Network.init layers mini_batch_size).isOk = true := by
  cases layers with
  | nil => exact absurd rfl h
  | cons l0 rest => rfl

/-- Witness for `network_init_never_validates_sizes` at a concrete
mismatched configuration. -/
theorem network_init_never_validates_sizes_witness :
    ([⟨784, 30, 0⟩, ⟨30, 10, 0⟩] : List LayerDecl) ≠ [] ∧
    (Network.init [⟨784, 30, 0⟩, ⟨30, 10, 0⟩] 7).isOk = true :=
  ⟨by decide, network_init_never_validates_sizes [⟨784, 30, 0⟩, ⟨30, 10, 0⟩] 7 (by decide)⟩

set_option maxHeartbeats 2000000 in
/-- **C4.** The pooling window is **not** the constructor's `poolsize`:
lines 163-164 hardcode `window_shape = (2, 2)` and `strides = (2, 2)`.
On a layer constructed with `poolsize = (3, 3)` whose 6×6 feature map has
distinct entries `0..35`, `set_inpt` produces the 3×3 result of 2×2/stride-2
pooling, not the 2×2 result of the claimed 3×3/stride-3 pooling; the two
disagree.  (The claim's `4×4 → 2×2` example happens to hold because it uses
the hardcoded value `(2, 2)`; last conjunct.) -/
theorem convpool_pooling_window_hardcoded_2x2 :
    (demoConvPoolLayer.set_inpt demoFlat36 demoFlat36 1).map (fun r => r.2.1) =
      .ok [[[[7, 9, 11], [19, 21, 23], [31, 33, 35]]]] ∧
    maxPoolPlane 3 3 3 3 demoPlane6 = [[14, 17], [32, 35]] ∧
    ([[[[(7 : ℚ), 9, 11], [19, 21, 23], [31, 33, 35]]]] : Tensor4) ≠
      [[[[14, 17], [32, 35]]]] ∧
    maxPoolPlane 2 2 2 2 demoPlane4 = [[6, 8], [14, 16]] := by
  refine ⟨?_, by decide, by decide, by decide⟩
  simp only [demoConvPoolLayer, demoFlat36, ConvPoolLayer.set_inpt, conv_general_dilated,
    sumPlanes, convPlaneSAME, paddedEntry, demoPlane6, maxPoolPlane, validOutDim, poolWindow,
    addScalarPlane, linear, Except.map, List.range_succ]
  simp [convPlaneSAME, paddedEntry, maxPoolPlane, validOutDim, poolWindow, addScalarPlane,
    linear, List.range_succ, List.max?, max_def]
  norm_num

/-! ### List-indexing helper lemmas -/

theorem getD_map_of_lt {α β : Type} (f : α → β) (l : List α) {i : ℕ} (hi : i < l.length)
    (d : β) (d' : α) : (l.map f).getD i d = f (l.getD i d') := by
  rw [List.getD_eq_getElem (l.map f) d (by simpa using hi), List.getD_eq_getElem l d' hi,
    List.getElem_map]

theorem getD_range_map {β : Type} (g : ℕ → β) {n j : ℕ} (hj : j < n) (d : β) :
    ((List.range n).map g).getD j d = g j := by
  rw [getD_map_of_lt g (List.range n) (by simpa using hj) d 0,
    List.getD_eq_getElem (List.range n) 0 (by simpa using hj)]
  simp

theorem getD_zipWith_of_lt {α β γ : Type} (f : α → β → γ) (u : List α) (v : List β) {i : ℕ}
    (hu : i < u.length) (hv : i < v.length) (d : γ) (du : α) (dv : β) :
    (List.zipWith f u v).getD i d = f (u.getD i du) (v.getD i dv) := by
  rw [List.getD_eq_getElem _ d (by simp only [List.length_zipWith]; omega),
    List.getD_eq_getElem u du hu, List.getD_eq_getElem v dv hv, List.getElem_zipWith]

theorem length_reshapeRows {α : Type} [Field α] (r c : ℕ) (xs : List α) :
    (reshapeRows r c xs).length = r := by
  induction r generalizing xs with
  | zero => rfl
  | succ n ih => simp [reshapeRows, ih]

theorem matMul_getD {α : Type} [Field α] (A B : List (List α)) {i : ℕ} (hi : i < A.length) :
    (matMul A B).getD i [] =
      (List.range (B.headD []).length).map (fun j => dotVec (A.getD i []) (column B j)) :=
  getD_map_of_lt _ A hi [] []

theorem matMul_entry {α : Type} [Field α] (A B : List (List α)) {i j : ℕ}
    (hi : i < A.length) (hj : j < (B.headD []).length) :
    ((matMul A B).getD i []).getD j 0 = dotVec (A.getD i []) (column B j) := by
  rw [matMul_getD A B hi, getD_range_map _ hj]

theorem addBias_getD {α : Type} [Field α] (A : List (List α)) (b : List α) {i : ℕ}
    (hi : i < A.length) :
    (addBias A b).getD i [] = List.zipWith (· + ·) (A.getD i []) b :=
  getD_map_of_lt _ A hi [] []

theorem scaleMatrix_getD {α : Type} [Field α] (c : α) (A : List (List α)) {i : ℕ}
    (hi : i < A.length) :
    (scaleMatrix c A).getD i [] = (A.getD i []).map (fun x => c * x) :=
  getD_map_of_lt _ A hi [] []

theorem mapMatrix_getD {α : Type} [Field α] (f : α → α) (A : List (List α)) {i : ℕ}
    (hi : i < A.length) :
    (mapMatrix f A).getD i [] = (A.getD i []).map f :=
  getD_map_of_lt _ A hi [] []

/-- **C7.** `FullyConnectedLayer.set_inpt` reshapes both inputs to
`(mini_batch_size, n_in)`; the primary output's entry `(i, j)` is
`activation_fn((1 - p)·(x·W)_{ij} + b_j)` — the inverted-dropout factor
`(1 - p)` multiplies the primary path — while the dropout-path entry is
`activation_fn((dropout(x)·W)_{ij} + b_j)` with no rescaling factor.
`us` is the matrix of uniform samples behind the dropout mask (one per
entry of the reshaped input). -/
theorem fc_set_inpt_scales_primary_path_only
    (l : FullyConnectedLayer) (inpt inpt_dropout : List ℚ) (mbs : ℕ)
    (us : List (List ℚ)) (hus : us.length = mbs)
    {i j : ℕ} (hi : i < mbs) (hjw : j < (l.w.headD []).length) (hjb : j < l.b.length) :
    (l.set_inpt inpt inpt_dropout mbs us).inpt = reshapeRows mbs l.n_in inpt ∧
    (l.set_inpt inpt inpt_dropout mbs us).inpt.length = mbs ∧
    (l.set_inpt inpt inpt_dropout mbs us).inpt_dropout =
      dropoutMatrix (reshapeRows mbs l.n_in inpt_dropout) l.p_dropout us ∧
    (l.set_inpt inpt inpt_dropout mbs us).inpt_dropout.length = mbs ∧
    (((l.set_inpt inpt inpt_dropout mbs us).output.getD i []).getD j 0 =
      l.activation_fn ((1 - l.p_dropout) *
        dotVec ((reshapeRows mbs l.n_in inpt).getD i []) (column l.w j) + l.b.getD j 0)) ∧
    (((l.set_inpt inpt inpt_dropout mbs us).output_dropout.getD i []).getD j 0 =
      l.activation_fn (dotVec
        ((dropoutMatrix (reshapeRows mbs l.n_in inpt_dropout) l.p_dropout us).getD i [])
        (column l.w j) + l.b.getD j 0)) := by
  have hlen_in : (reshapeRows mbs l.n_in inpt).length = mbs := length_reshapeRows ..
  have hlen_ind : (reshapeRows mbs l.n_in inpt_dropout).length = mbs := length_reshapeRows ..
  have hlen_drop :
      (dropoutMatrix (reshapeRows mbs l.n_in inpt_dropout) l.p_dropout us).length = mbs := by
    simp [dropoutMatrix, hlen_ind, hus]
  refine ⟨rfl, by simpa using hlen_in, rfl, by simpa using hlen_drop, ?_, ?_⟩
  · have h1 : (matMul (reshapeRows mbs l.n_in inpt) l.w).length = mbs := by
      simp [matMul, hlen_in]
    have h2 : (scaleMatrix (1 - l.p_dropout) (matMul (reshapeRows mbs l.n_in inpt) l.w)).length
        = mbs := by simp [scaleMatrix, h1]
    have h3 : (addBias (scaleMatrix (1 - l.p_dropout)
        (matMul (reshapeRows mbs l.n_in inpt) l.w)) l.b).length = mbs := by
      simp [addBias, h2]
    have hrow1 : ((matMul (reshapeRows mbs l.n_in inpt) l.w).getD i []).length
        = (l.w.headD []).length := by
      rw [matMul_getD _ _ (show i < (reshapeRows mbs l.n_in inpt).length by rw [hlen_in]; exact hi)]; simp
    show ((mapMatrix l.activation_fn (addBias (scaleMatrix (1 - l.p_dropout)
        (matMul (reshapeRows mbs l.n_in inpt) l.w)) l.b)).getD i []).getD j 0 = _
    rw [mapMatrix_getD _ _ (by rw [h3]; exact hi)]
    rw [getD_map_of_lt _ _ (by
      rw [addBias_getD _ _ (by rw [h2]; exact hi)]
      rw [scaleMatrix_getD _ _ (by rw [h1]; exact hi)]
      rw [List.length_zipWith, List.length_map, hrow1]
      exact lt_min hjw hjb) 0 0]
    rw [addBias_getD _ _ (by rw [h2]; exact hi)]
    rw [scaleMatrix_getD _ _ (by rw [h1]; exact hi)]
    rw [getD_zipWith_of_lt _ _ _ (by rw [List.length_map, hrow1]; exact hjw) hjb 0 0 0]
    rw [getD_map_of_lt _ _ (by rw [hrow1]; exact hjw) 0 0]
    rw [matMul_entry _ _ (by rw [hlen_in]; exact hi) hjw]
  · have h1 : (matMul (dropoutMatrix (reshapeRows mbs l.n_in inpt_dropout) l.p_dropout us)
        l.w).length = mbs := by simp [matMul, hlen_drop]
    have h3 : (addBias (matMul (dropoutMatrix (reshapeRows mbs l.n_in inpt_dropout)
        l.p_dropout us) l.w) l.b).length = mbs := by simp [addBias, h1]
    have hrow1 : ((matMul (dropoutMatrix (reshapeRows mbs l.n_in inpt_dropout) l.p_dropout us)
        l.w).getD i []).length = (l.w.headD []).length := by
      rw [matMul_getD _ _ (show
        i < (dropoutMatrix (reshapeRows mbs l.n_in inpt_dropout) l.p_dropout us).length
        by rw [hlen_drop]; exact hi)]
      simp
    show ((mapMatrix l.activation_fn (addBias (matMul (dropoutMatrix
        (reshapeRows mbs l.n_in inpt_dropout) l.p_dropout us) l.w) l.b)).getD i []).getD j 0 = _
    rw [mapMatrix_getD _ _ (by rw [h3]; exact hi)]
    rw [getD_map_of_lt _ _ (by
      rw [addBias_getD _ _ (by rw [h1]; exact hi)]
      rw [List.length_zipWith, hrow1]
      exact lt_min hjw hjb) 0 0]
    rw [addBias_getD _ _ (by rw [h1]; exact hi)]
    rw [getD_zipWith_of_lt _ _ _ (by rw [hrow1]; exact hjw) hjb 0 0 0]
    rw [matMul_entry _ _ (by rw [hlen_drop]; exact hi) hjw]

/-- Witness for `fc_set_inpt_scales_primary_path_only`: a 1×2 layer with
`p_dropout = 1/2` on a concrete input. -/
theorem fc_set_inpt_scales_primary_path_only_witness :
    (([[ (1 : ℚ), 0]] : List (List ℚ)).length = 1 ∧ (0 : ℕ) < 1 ∧
      (0 : ℕ) < (demoFCLayer.w.headD []).length ∧
      (0 : ℕ) < demoFCLayer.b.length) ∧
    ((demoFCLayer.set_inpt [2] [2] 1 [[1, 0]]).output.getD 0 []).getD 0 0 =
      demoFCLayer.activation_fn ((1 - demoFCLayer.p_dropout) *
        dotVec ((reshapeRows 1 demoFCLayer.n_in [2]).getD 0 [])
          (column demoFCLayer.w 0) + demoFCLayer.b.getD 0 0) := by
  refine ⟨⟨rfl, by decide, by decide, by decide⟩, ?_⟩
  exact (fc_set_inpt_scales_primary_path_only demoFCLayer [2] [2] 1 [[1, 0]] rfl
    (by decide) (by decide) (by decide)).2.2.2.2.1

/-- **C5.** The graph lines 308-316 build: the total cost is the last
layer's cost plus `0.5 * lmbda * L2 / num_training_batches`, where `L2`
sums the squared entries of every layer's `w` tensor only (replacing every
layer's biases leaves `L2` unchanged); the gradient is taken of exactly
this total cost; and every update pair is `(param, param - eta * grad)` —
plain SGD with no momentum or adaptive-rate term. -/
theorem sgd_total_cost_and_plain_updates
    (gradOf : ℚ → List ℚ → List ℚ) (layers : List LayerWB) (lastLayerCost : ℚ)
    (params : List ℚ) (eta lmbda : ℚ) (num_training_batches : ℕ) :
    (buildSGDGraph gradOf layers lastLayerCost params eta lmbda num_training_batches).cost =
      lastLayerCost + (1/2) * lmbda *
        ((layers.map (fun l => sumSquares l.w)).sum) / num_training_batches ∧
    (∀ f : LayerWB → List ℚ,
      l2_norm_squared (layers.map (fun l => { l with b := f l })) = l2_norm_squared layers) ∧
    (buildSGDGraph gradOf layers lastLayerCost params eta lmbda num_training_batches).grads =
      gradOf (buildSGDGraph gradOf layers lastLayerCost params eta lmbda
        num_training_batches).cost params ∧
    (buildSGDGraph gradOf layers lastLayerCost params eta lmbda num_training_batches).updates =
      List.zipWith (fun param grad => (param, param - eta * grad)) params
        (buildSGDGraph gradOf layers lastLayerCost params eta lmbda num_training_batches).grads ∧
    (∀ i, i < params.length →
      i < (buildSGDGraph gradOf layers lastLayerCost params eta lmbda
        num_training_batches).grads.length →
      (buildSGDGraph gradOf layers lastLayerCost params eta lmbda
          num_training_batches).updates.getD i (0, 0) =
        (params.getD i 0, params.getD i 0 - eta *
          (buildSGDGraph gradOf layers lastLayerCost params eta lmbda
            num_training_batches).grads.getD i 0)) := by
  refine ⟨rfl, ?_, rfl, rfl, ?_⟩
  · intro f
    simp [l2_norm_squared, List.map_map]
    rfl
  · intro i hip hig
    exact getD_zipWith_of_lt (fun param grad => (param, param - eta * grad))
      params _ hip hig (0, 0) 0 0

/-- Witness for `sgd_total_cost_and_plain_updates` at a concrete graph. -/
theorem sgd_total_cost_and_plain_updates_witness :
    ((0 : ℕ) < ([(4 : ℚ)] : List ℚ).length ∧
      (0 : ℕ) < (buildSGDGraph demoGradOf demoLayersWB 5 [4] 2 6 3).grads.length) ∧
    (buildSGDGraph demoGradOf demoLayersWB 5 [4] 2 6 3).updates.getD 0 (0, 0) =
      (([(4 : ℚ)] : List ℚ).getD 0 0, ([(4 : ℚ)] : List ℚ).getD 0 0 -
        2 * (buildSGDGraph demoGradOf demoLayersWB 5 [4] 2 6 3).grads.getD 0 0) := by
  refine ⟨⟨by decide, by decide⟩, ?_⟩
  exact (sgd_total_cost_and_plain_updates demoGradOf demoLayersWB 5 [4] 2 6
    3).2.2.2.2 0 (by decide) (by decide)

/-- `dropout_layer` at `p_dropout = 0`: every mask draw succeeds
(`u < 1 - 0` for uniform `u < 1`), so the output equals the input. -/
theorem dropout_layer_zero (layer us : List ℚ) (hlen : us.length = layer.length)
    (hu : ∀ u ∈ us, u < 1) : dropout_layer layer 0 us = layer := by
  induction layer generalizing us with
  | nil => simp [dropout_layer]
  | cons x xs ih =>
    cases us with
    | nil => simp at hlen
    | cons u us2 =>
      have hu1 : u < 1 := hu u (by simp)
      show (x * binomialDraw (1 - 0) u) :: dropout_layer xs 0 us2 = x :: xs
      rw [show binomialDraw (1 - 0) u = 1 by simp [binomialDraw, hu1], mul_one,
        ih us2 (by simpa using hlen) (fun v hv => hu v (by simp [hv]))]

/-- `dropout_layer` at `p_dropout = 1`: every mask draw fails
(`u < 1 - 1 = 0` is impossible for `u ≥ 0`), so the output is all zeros. -/
theorem dropout_layer_one (layer us : List ℚ) (hlen : us.length = layer.length)
    (hu : ∀ u ∈ us, 0 ≤ u) :
    dropout_layer layer 1 us = List.replicate layer.length 0 := by
  induction layer generalizing us with
  | nil => simp [dropout_layer]
  | cons x xs ih =>
    cases us with
    | nil => simp at hlen
    | cons u us2 =>
      have hu0 : (0 : ℚ) ≤ u := hu u (by simp)
      have hnot : ¬ (u < 1 - 1) := by
        rw [show (1 : ℚ) - 1 = 0 by norm_num]
        exact not_lt.mpr hu0
      show (x * binomialDraw (1 - 1) u) :: dropout_layer xs 1 us2 =
        List.replicate (x :: xs).length 0
      rw [show binomialDraw (1 - 1) u = 0 by simp [binomialDraw, hnot, hu0], mul_zero,
        ih us2 (by simpa using hlen) (fun v hv => hu v (by simp [hv]))]
      simp [List.replicate_succ]

/-- **C9.** `dropout_layer(t, p)` (with the uniform samples `us` behind the
binomial mask explicit, one per element, each in `[0, 1)`): the output has
the shape of the input; element `i` is kept exactly when the draw succeeds
(`us_i < 1 - p`, an event of probability `1 - p` for a uniform sample, taken
independently per element) and zeroed otherwise, with no rescaling factor;
for `p = 0` the output equals the input exactly; for `p = 1` it is all
zeros. -/
theorem dropout_layer_keep_or_zero_no_rescale
    (layer : List ℚ) (p : ℚ) (us : List ℚ)
    (hlen : us.length = layer.length) (hu : ∀ u ∈ us, 0 ≤ u ∧ u < 1) :
    (dropout_layer layer p us).length = layer.length ∧
    (∀ i, i < layer.length →
      (dropout_layer layer p us).getD i 0 =
        if us.getD i 0 < 1 - p then layer.getD i 0 else 0) ∧
    (p = 0 → dropout_layer layer p us = layer) ∧
    (p = 1 → dropout_layer layer p us = List.replicate layer.length 0) := by
  refine ⟨by simp [dropout_layer, hlen], ?_, ?_, ?_⟩
  · intro i hi
    rw [dropout_layer, getD_zipWith_of_lt _ _ _ hi (by rw [hlen]; exact hi) 0 0 0]
    by_cases h : us.getD i 0 < 1 - p
    · simp [binomialDraw, h]
    · simp [binomialDraw, h]
  · intro hp
    subst hp
    exact dropout_layer_zero layer us hlen (fun u hu2 => (hu u hu2).2)
  · intro hp
    subst hp
    exact dropout_layer_one layer us hlen (fun u hu2 => (hu u hu2).1)

/-- Witness for `dropout_layer_keep_or_zero_no_rescale` at `p = 1/2` on a
concrete vector with uniform samples `[0, 0]`. -/
theorem dropout_layer_keep_or_zero_no_rescale_witness :
    (([0, 0] : List ℚ).length = ([2, 3] : List ℚ).length ∧
      (∀ u ∈ ([0, 0] : List ℚ), 0 ≤ u ∧ u < 1) ∧ (0 : ℕ) < ([2, 3] : List ℚ).length) ∧
    (dropout_layer [2, 3] (1/2) [0, 0]).length = ([2, 3] : List ℚ).length ∧
    (dropout_layer [2, 3] (1/2) [0, 0]).getD 0 0 =
      (if ([0, 0] : List ℚ).getD 0 0 < 1 - 1/2 then ([2, 3] : List ℚ).getD 0 0 else 0) := by
  have h := dropout_layer_keep_or_zero_no_rescale [2, 3] (1/2) [0, 0]
    (by decide) (by decide)
  exact ⟨⟨by decide, by decide, by decide⟩, h.1, h.2.1 0 (by decide)⟩

/-! ### Training-loop helper lemmas -/

theorem sgdInner_best_mono (vmb tmb : ℕ → ℕ → ℚ) (hasTest : Bool)
    (ntb nvb ntestb epoch : ℕ) (st : TrainState) (mbi : ℕ) :
    st.best_validation_accuracy ≤
      (sgdInner vmb tmb hasTest ntb nvb ntestb epoch st mbi).best_validation_accuracy := by
  simp only [sgdInner]
  split
  · split
    · rename_i hge
      split <;> exact hge
    · exact le_rfl
  · exact le_rfl

theorem foldl_sgdInner_best_mono (vmb tmb : ℕ → ℕ → ℚ) (hasTest : Bool)
    (ntb nvb ntestb epoch : ℕ) :
    ∀ (l : List ℕ) (st : TrainState),
      st.best_validation_accuracy ≤
        (l.foldl (sgdInner vmb tmb hasTest ntb nvb ntestb epoch) st).best_validation_accuracy := by
  intro l
  induction l with
  | nil => intro st; exact le_rfl
  | cons a rest ih =>
    intro st
    exact le_trans (sgdInner_best_mono vmb tmb hasTest ntb nvb ntestb epoch st a) (ih _)

theorem sgdEpoch_best_mono (vmb tmb : ℕ → ℕ → ℚ) (hasTest : Bool)
    (ntb nvb ntestb : ℕ) (st : TrainState) (epoch : ℕ) :
    st.best_validation_accuracy ≤
      (sgdEpoch vmb tmb hasTest ntb nvb ntestb st epoch).best_validation_accuracy :=
  foldl_sgdInner_best_mono vmb tmb hasTest ntb nvb ntestb epoch (List.range ntb) st

theorem runSGD_succ (vmb tmb : ℕ → ℕ → ℚ) (hasTest : Bool)
    (ntb nvb ntestb e : ℕ) :
    runSGD vmb tmb hasTest ntb nvb ntestb (e + 1) =
      sgdEpoch vmb tmb hasTest ntb nvb ntestb
        (runSGD vmb tmb hasTest ntb nvb ntestb e) e := by
  unfold runSGD
  rw [List.range_succ, List.foldl_append]
  rfl

theorem sgdInner_train_calls (vmb tmb : ℕ → ℕ → ℚ) (hasTest : Bool)
    (ntb nvb ntestb epoch : ℕ) (st : TrainState) (mbi : ℕ) :
    (sgdInner vmb tmb hasTest ntb nvb ntestb epoch st mbi).train_calls =
      st.train_calls + 1 := by
  simp only [sgdInner]
  split
  · split
    · split <;> rfl
    · rfl
  · rfl

theorem foldl_sgdInner_train_calls (vmb tmb : ℕ → ℕ → ℚ) (hasTest : Bool)
    (ntb nvb ntestb epoch : ℕ) :
    ∀ (l : List ℕ) (st : TrainState),
      (l.foldl (sgdInner vmb tmb hasTest ntb nvb ntestb epoch) st).train_calls =
        st.train_calls + l.length := by
  intro l
  induction l with
  | nil => intro st; rfl
  | cons a rest ih =>
    intro st
    rw [List.foldl_cons, ih, sgdInner_train_calls]
    simp [Nat.add_assoc, Nat.add_comm 1]

theorem sgdEpoch_train_calls (vmb tmb : ℕ → ℕ → ℚ) (hasTest : Bool)
    (ntb nvb ntestb : ℕ) (st : TrainState) (epoch : ℕ) :
    (sgdEpoch vmb tmb hasTest ntb nvb ntestb st epoch).train_calls =
      st.train_calls + ntb := by
  unfold sgdEpoch
  rw [foldl_sgdInner_train_calls, List.length_range]

theorem runSGD_train_calls (vmb tmb : ℕ → ℕ → ℚ) (hasTest : Bool)
    (ntb nvb ntestb : ℕ) : ∀ epochs : ℕ,
    (runSGD vmb tmb hasTest ntb nvb ntestb epochs).train_calls = epochs * ntb := by
  intro epochs
  induction epochs with
  | zero => simp [runSGD, initTrainState]
  | succ e ih =>
    rw [runSGD_succ, sgdEpoch_train_calls, ih, Nat.succ_mul]

/-- **C6.** In the training loop: (a) on every mini-batch except the last
one of the epoch (`minibatch_index + 1 < num_training_batches`), the state
only gains the training-step call — no validation accuracy is computed;
(b) on the last mini-batch (`minibatch_index = num_training_batches - 1`)
the mean validation accuracy over all `num_validation_batches` validation
mini-batches is computed, and a new best is recorded exactly when it is
`>=` the best so far, together with the current global iteration index and
— when test data is supplied — the mean test accuracy at that same point
(without test data the recorded test accuracy is untouched); when the new
accuracy is strictly below the best, only the call counter changes;
(c) the recorded best validation accuracy is non-decreasing across
epochs. -/
theorem sgd_validates_at_epoch_end_records_best_with_ge
    (vmb tmb : ℕ → ℕ → ℚ) (hasTest : Bool) (ntb nvb ntestb : ℕ) (hntb : 0 < ntb) :
    (∀ (st : TrainState) (epoch mbi : ℕ), mbi + 1 < ntb →
      sgdInner vmb tmb hasTest ntb nvb ntestb epoch st mbi =
        { st with train_calls := st.train_calls + 1 }) ∧
    (∀ (st : TrainState) (epoch : ℕ),
      (st.best_validation_accuracy ≤
          meanQ ((List.range nvb).map (vmb (st.train_calls + 1))) →
        (sgdInner vmb tmb hasTest ntb nvb ntestb epoch st
            (ntb - 1)).best_validation_accuracy =
          meanQ ((List.range nvb).map (vmb (st.train_calls + 1))) ∧
        (sgdInner vmb tmb hasTest ntb nvb ntestb epoch st (ntb - 1)).best_iteration =
          some (ntb * epoch + (ntb - 1)) ∧
        (hasTest = true →
          (sgdInner vmb tmb hasTest ntb nvb ntestb epoch st (ntb - 1)).test_accuracy =
            some (meanQ ((List.range ntestb).map (tmb (st.train_calls + 1))))) ∧
        (hasTest = false →
          (sgdInner vmb tmb hasTest ntb nvb ntestb epoch st (ntb - 1)).test_accuracy =
            st.test_accuracy)) ∧
      (¬ st.best_validation_accuracy ≤
          meanQ ((List.range nvb).map (vmb (st.train_calls + 1))) →
        sgdInner vmb tmb hasTest ntb nvb ntestb epoch st (ntb - 1) =
          { st with train_calls := st.train_calls + 1 })) ∧
    (∀ e1 e2 : ℕ, e1 ≤ e2 →
      (runSGD vmb tmb hasTest ntb nvb ntestb e1).best_validation_accuracy ≤
        (runSGD vmb tmb hasTest ntb nvb ntestb e2).best_validation_accuracy) := by
  refine ⟨?_, ?_, ?_⟩
  · intro st epoch mbi hmbi
    have hc : (ntb * epoch + mbi + 1) % ntb = mbi + 1 := by
      rw [Nat.add_assoc, Nat.mul_add_mod]
      exact Nat.mod_eq_of_lt hmbi
    simp only [sgdInner]
    rw [if_neg (by simp [hc])]
  · intro st epoch
    have hc : (ntb * epoch + (ntb - 1) + 1) % ntb = 0 := by
      rw [Nat.add_assoc, Nat.sub_add_cancel hntb, Nat.mul_add_mod, Nat.mod_self]
    constructor
    · intro hge
      simp only [sgdInner]
      rw [if_pos (by simp [hc])]
      rw [if_pos hge]
      cases hasTest with
      | true => exact ⟨rfl, rfl, fun _ => rfl, fun hf => by simp at hf⟩
      | false => exact ⟨rfl, rfl, fun ht => by simp at ht, fun _ => rfl⟩
    · intro hlt
      simp only [sgdInner]
      rw [if_pos (by simp [hc])]
      rw [if_neg hlt]
  · intro e1 e2 h
    induction h with
    | refl => exact le_rfl
    | step hm ih =>
      rw [runSGD_succ]
      exact le_trans ih (sgdEpoch_best_mono vmb tmb hasTest ntb nvb ntestb _ _)

/-- Witness for `sgd_validates_at_epoch_end_records_best_with_ge` with two
mini-batches per epoch and constant accuracy evaluators. -/
theorem sgd_validates_at_epoch_end_records_best_with_ge_witness :
    (0 < 2 ∧ 0 + 1 < 2 ∧
      initTrainState.best_validation_accuracy ≤
        meanQ ((List.range 1).map ((fun _ _ => 0 : ℕ → ℕ → ℚ)
          (initTrainState.train_calls + 1))) ∧ (0 : ℕ) ≤ 1) ∧
    sgdInner (fun _ _ => 0) (fun _ _ => 0) true 2 1 1 0 initTrainState 0 =
      { initTrainState with train_calls := initTrainState.train_calls + 1 } ∧
    (sgdInner (fun _ _ => 0) (fun _ _ => 0) true 2 1 1 0 initTrainState
        (2 - 1)).best_iteration = some (2 * 0 + (2 - 1)) ∧
    (runSGD (fun _ _ => 0) (fun _ _ => 0) true 2 1 1 0).best_validation_accuracy ≤
      (runSGD (fun _ _ => 0) (fun _ _ => 0) true 2 1 1 1).best_validation_accuracy := by
  have hge : initTrainState.best_validation_accuracy ≤
      meanQ ((List.range 1).map ((fun _ _ => 0 : ℕ → ℕ → ℚ)
        (initTrainState.train_calls + 1))) := by
    simp [initTrainState, meanQ]
  have h := sgd_validates_at_epoch_end_records_best_with_ge
    (fun _ _ => 0) (fun _ _ => 0) true 2 1 1 (by decide)
  exact ⟨⟨by decide, by decide, hge, by decide⟩,
    h.1 initTrainState 0 0 (by decide),
    ((h.2.1 initTrainState 0).1 hge).2.1,
    h.2.2 0 1 (by decide)⟩

/-! ### Batch-count helper lemmas -/

theorem usedRows_eq_range (m : ℕ) : ∀ nb : ℕ, usedRows nb m = List.range (nb * m) := by
  intro nb
  induction nb with
  | zero => simp [usedRows]
  | succ k ih =>
    rw [usedRows, List.range_succ, List.flatMap_append,
      show (List.range k).flatMap (fun i => batchRows i m) = usedRows k m from rfl, ih]
    rw [Nat.succ_mul, List.range_add]
    simp [batchRows, List.range'_eq_map_range]

/-- **C10.** For each data split, the number of mini-batches is
`floor(row_count / mini_batch_size)` (characterized by the two
inequalities); the mini-batch slices `[i*mbs, (i+1)*mbs)` for
`i < num_batches` together read exactly the row indices
`0 .. num_batches*mbs - 1`, so the remainder rows (indices
`>= num_batches*mbs`) are never used; and each epoch of the training loop
makes exactly `num_batches` training-step invocations. -/
theorem batch_count_floor_remainder_never_used
    (data : List (List ℚ) × List ℕ) (mini_batch_size : ℕ) (h : 0 < mini_batch_size) :
    num_batches data mini_batch_size * mini_batch_size ≤ size data ∧
    size data < (num_batches data mini_batch_size + 1) * mini_batch_size ∧
    usedRows (num_batches data mini_batch_size) mini_batch_size =
      List.range (num_batches data mini_batch_size * mini_batch_size) ∧
    (∀ r, num_batches data mini_batch_size * mini_batch_size ≤ r →
      r ∉ usedRows (num_batches data mini_batch_size) mini_batch_size) ∧
    (∀ (vmb tmb : ℕ → ℕ → ℚ) (hasTest : Bool) (nvb ntestb epochs : ℕ),
      (runSGD vmb tmb hasTest (num_batches data mini_batch_size) nvb ntestb
        epochs).train_calls = epochs * num_batches data mini_batch_size) := by
  have hdm := Nat.div_add_mod (size data) mini_batch_size
  have hmod := Nat.mod_lt (size data) h
  refine ⟨?_, ?_, usedRows_eq_range mini_batch_size _, ?_, ?_⟩
  · exact Nat.div_mul_le_self (size data) mini_batch_size
  · have hcomm : num_batches data mini_batch_size * mini_batch_size =
        mini_batch_size * (size data / mini_batch_size) := Nat.mul_comm ..
    rw [Nat.add_mul, Nat.one_mul, hcomm]
    omega
  · intro r hr
    rw [usedRows_eq_range]
    simp only [List.mem_range]
    omega
  · intro vmb tmb hasTest nvb ntestb epochs
    exact runSGD_train_calls vmb tmb hasTest _ nvb ntestb epochs

/-- Witness for `batch_count_floor_remainder_never_used`: a 105-row split
with `mini_batch_size = 10` yields 10 batches and 10 training-step
invocations in one epoch. -/
theorem batch_count_floor_remainder_never_used_witness :
    (0 < 10 ∧ num_batches demoSplit 10 = 10) ∧
    num_batches demoSplit 10 * 10 ≤ size demoSplit ∧
    size demoSplit < (num_batches demoSplit 10 + 1) * 10 ∧
    (runSGD (fun _ _ => 0) (fun _ _ => 0) true (num_batches demoSplit 10) 1 1
      1).train_calls = 1 * num_batches demoSplit 10 := by
  have h := batch_count_floor_remainder_never_used demoSplit 10 (by decide)
  exact ⟨⟨by decide, by decide⟩, h.1, h.2.1,
    h.2.2.2.2 (fun _ _ => 0) (fun _ _ => 0) true 1 1 1⟩

/-! ### Softmax-cost helper lemmas -/

theorem list_sum_nonpos {l : List ℝ} (h : ∀ x ∈ l, x ≤ 0) : l.sum ≤ 0 := by
  induction l with
  | nil => simp
  | cons a rest ih =>
    rw [List.sum_cons]
    have ha := h a (by simp)
    have hrest := ih (fun x hx => h x (by simp [hx]))
    linarith

/-- Entry `k` of a softmax row (`k` in range) is `exp z_k / Σ exp`. -/
theorem softmaxMatrix_entry (Z : List (List ℝ)) {i : ℕ} (hi : i < Z.length) {k : ℕ}
    (hk : k < (Z.getD i []).length) :
    ((softmaxMatrix Z).getD i []).getD k 0 = trueLabelProb Z i k := by
  unfold softmaxMatrix
  rw [getD_map_of_lt softmaxRow Z hi [] []]
  unfold softmaxRow trueLabelProb
  rw [getD_map_of_lt _ _ hk 0 0]

/-- Any in-range softmax probability lies in `(0, 1]`, so its log is
non-positive. -/
theorem log_trueLabelProb_nonpos (Z : List (List ℝ)) (i k : ℕ)
    (hk : k < (Z.getD i []).length) :
    Real.log (trueLabelProb Z i k) ≤ 0 := by
  have hmem : (Z.getD i []).getD k 0 ∈ Z.getD i [] := by
    rw [List.getD_eq_getElem (Z.getD i []) 0 hk]
    exact List.getElem_mem hk
  have hsumpos : 0 < ((Z.getD i []).map Real.exp).sum := by
    refine List.sum_pos _ ?_ ?_
    · intro a ha
      obtain ⟨z, _, rfl⟩ := List.mem_map.mp ha
      exact Real.exp_pos z
    · have : Z.getD i [] ≠ [] :=
        List.ne_nil_of_length_pos (lt_of_le_of_lt (Nat.zero_le k) hk)
      simpa using this
  have hle : Real.exp ((Z.getD i []).getD k 0) ≤ ((Z.getD i []).map Real.exp).sum :=
    List.single_le_sum
      (fun x hx => by obtain ⟨z, _, rfl⟩ := List.mem_map.mp hx; exact (Real.exp_pos z).le)
      _ (List.mem_map_of_mem Real.exp hmem)
  have hP0 : 0 ≤ trueLabelProb Z i k := by
    unfold trueLabelProb
    exact le_of_lt (div_pos (Real.exp_pos _) hsumpos)
  have hP1 : trueLabelProb Z i k ≤ 1 := by
    unfold trueLabelProb
    exact (div_le_one hsumpos).mpr hle
  exact Real.log_nonpos hP0 hP1

/-- **C8.** `SoftmaxLayer.cost` on the softmax output (the layer's
predicted distributions) equals the negative mean, over the mini-batch
rows, of the log of the probability assigned to the true label from the
label vector `y`, and this value is always `≥ 0`.  The last conjunct
records that `SoftmaxLayer.set_inpt` indeed produces its dropout-path
output (the one `cost` reads) as the row-wise softmax of its affine
logits. -/
theorem softmax_cost_is_neg_mean_log_likelihood_and_nonneg
    (Z : List (List ℝ)) (y : List ℕ)
    (hlen : y.length ≤ Z.length)
    (hy : ∀ i, i < y.length → y.getD i 0 < (Z.getD i []).length) :
    SoftmaxLayer.cost (softmaxMatrix Z) y =
      -(((List.range y.length).map
          (fun i => Real.log (trueLabelProb Z i (y.getD i 0)))).sum / (y.length : ℝ)) ∧
    0 ≤ SoftmaxLayer.cost (softmaxMatrix Z) y ∧
    (∀ (w : List (List ℝ)) (b : List ℝ) (n_in : ℕ) (x : List ℝ) (mbs : ℕ)
        (mask : List (List ℝ)),
      SoftmaxLayer.set_inpt_output_dropout w b n_in x mbs mask =
        softmaxMatrix (addBias (matMul (hadamard (reshapeRows mbs n_in x) mask) w) b)) := by
  have hmap : (List.range y.length).map
        (fun i => Real.log (((softmaxMatrix Z).getD i []).getD (y.getD i 0) 0)) =
      (List.range y.length).map
        (fun i => Real.log (trueLabelProb Z i (y.getD i 0))) := by
    refine List.map_congr_left ?_
    intro i hi
    rw [softmaxMatrix_entry Z (lt_of_lt_of_le (List.mem_range.mp hi) hlen)
      (hy i (List.mem_range.mp hi))]
  have hcost : SoftmaxLayer.cost (softmaxMatrix Z) y =
      -(((List.range y.length).map
          (fun i => Real.log (trueLabelProb Z i (y.getD i 0)))).sum / (y.length : ℝ)) := by
    unfold SoftmaxLayer.cost
    rw [hmap]
  refine ⟨hcost, ?_, fun _ _ _ _ _ _ => rfl⟩
  rw [hcost, ← neg_div]
  refine div_nonneg ?_ (Nat.cast_nonneg y.length)
  refine neg_nonneg.mpr (list_sum_nonpos ?_)
  intro x hx
  obtain ⟨i, hi, rfl⟩ := List.mem_map.mp hx
  exact log_trueLabelProb_nonpos Z i _ (hy i (List.mem_range.mp hi))

/-- Witness for `softmax_cost_is_neg_mean_log_likelihood_and_nonneg` at the
logits `[[0, 0]]` with label vector `[0]`. -/
theorem softmax_cost_is_neg_mean_log_likelihood_and_nonneg_witness :
    (([0] : List ℕ).length ≤ ([[0, 0]] : List (List ℝ)).length ∧
      (∀ i, i < ([0] : List ℕ).length →
        ([0] : List ℕ).getD i 0 < (([[0, 0]] : List (List ℝ)).getD i []).length)) ∧
    0 ≤ SoftmaxLayer.cost (softmaxMatrix [[0, 0]]) [0] := by
  have hy : ∀ i, i < ([0] : List ℕ).length →
      ([0] : List ℕ).getD i 0 < (([[0, 0]] : List (List ℝ)).getD i []).length := by
    intro i hi
    have h0 : i = 0 := by simpa using hi
    subst h0
    simp
  refine ⟨⟨by simp, hy⟩, ?_⟩
  exact (softmax_cost_is_neg_mean_log_likelihood_and_nonneg [[0, 0]] [0]
    (by simp) hy).2.1

end Network3
